import Mathlib

/-!
# Foodgram backend: shallow embedding and verification

Shallow embedding of the Foodgram recipe-sharing backend
(`backend/recipes/models.py`, `backend/users/models.py`,
`backend/api/serializers.py`, `backend/api/views.py`) and proofs of the
spec's testable properties.

The relational store is embedded as lists of rows; each Django model is a
Lean structure.  Controller actions (`views.py`) become functions from a
store and request data to an `Outcome` (HTTP status plus, for writes, the
new store).  Database uniqueness and check constraints declared in the
models' `Meta.constraints` are enforced at the insertion functions, the
way the database enforces them on `objects.create`.
-/

/-- Row of `recipes.models.Ingredient`: `name`, `measurement_unit`
(plus the implicit primary key `id`). -/
structure IngredientT where
  id : Nat
  name : String
  measurement_unit : String
deriving Repr, DecidableEq

/-- Row of `recipes.models.Recipe`: author FK, name, text, cooking_time
(image and pub_date carry no logic used by any property and are omitted). -/
structure RecipeT where
  id : Nat
  authorId : Nat
  name : String
  text : String
  cooking_time : Nat
deriving Repr, DecidableEq

/-- Row of `recipes.models.RecipeIngredient`: the Recipe–Ingredient join
with a positive `amount`. -/
structure RecipeIngredientT where
  recipeId : Nat
  ingredientId : Nat
  amount : Nat
deriving Repr, DecidableEq

/-- Row of `recipes.models.Favorite`: (user, recipe) join. -/
structure FavoriteT where
  userId : Nat
  recipeId : Nat
deriving Repr, DecidableEq

/-- Row of `recipes.models.RecipeCart` (the shopping cart): (user, recipe)
join; `date_added` is an auto timestamp with no logic attached. -/
structure RecipeCartT where
  userId : Nat
  recipeId : Nat
deriving Repr, DecidableEq

/-- Row of `users.models.Subscriptions`: `user` follows `author`. -/
structure SubscriptionT where
  authorId : Nat
  userId : Nat
deriving Repr, DecidableEq

/-- The relational store: one list of rows per table.  Users and tags are
kept as primary keys only; no property reads their other columns. -/
structure Store where
  users : List Nat
  tags : List Nat
  ingredients : List IngredientT
  recipes : List RecipeT
  recipeIngredients : List RecipeIngredientT
  recipeTags : List (Nat × Nat)
  favorites : List FavoriteT
  carts : List RecipeCartT
  subscriptions : List SubscriptionT
deriving Repr, DecidableEq

/-- HTTP-level outcome of a controller action: `created` (201) and
`noContent` (204) carry the updated store; `badRequest` (400),
`notFound` (404) and `serverError` (an unhandled `IntegrityError`)
leave the store as it was. -/
inductive Outcome where
  | created : Store → Outcome
  | noContent : Store → Outcome
  | badRequest : Outcome
  | notFound : Outcome
  | serverError : Outcome
deriving Repr, DecidableEq

/-- Store after an action: error outcomes do not modify the store. -/
def resultStore (s : Store) : Outcome → Store
  | .created s' => s'
  | .noContent s' => s'
  | _ => s

/-- Embedding of `api.serializers.UserSerializer.get_is_subscribed`: anonymous
requesters and a user viewing themselves get `false`; otherwise an
existence lookup in `Subscriptions`. -/
def get_is_subscribed (s : Store) (requester : Option Nat) (objId : Nat) : Bool :=
  match requester with
  | none => false
  | some u =>
    if u == objId then false
    else s.subscriptions.any fun x => x.userId == u && x.authorId == objId

/-- Rendered user profile (`UserSerializer`): the identity columns plus
the derived `is_subscribed` flag. -/
structure UserView where
  id : Nat
  is_subscribed : Bool
deriving Repr, DecidableEq

/-- Embedding of `UserSerializer.to_representation` restricted to the fields with
logic: the object's id and the derived `is_subscribed`. -/
def renderUser (s : Store) (requester : Option Nat) (objId : Nat) : UserView :=
  ⟨objId, get_is_subscribed s requester objId⟩

/-- Python `int(str)` as used by `SubscriptionsListSerializer.get_recipes`:
optional surrounding spaces, an optional sign, then one or more decimal
digits; anything else raises `ValueError`. -/
def pyInt (str : String) : Option Int :=
  let cs := (str.toList.dropWhile (fun c => c == ' ')).reverse.dropWhile
      (fun c => c == ' ') |>.reverse
  let (neg, ds) :=
    match cs with
    | '-' :: rest => (true, rest)
    | '+' :: rest => (false, rest)
    | _ => (false, cs)
  if ds.isEmpty || !(ds.all fun c => c.isDigit) then none
  else
    let n : Nat := ds.foldl (fun acc c => acc * 10 + (c.toNat - '0'.toNat)) 0
    some (if neg then -(n : Int) else (n : Int))

/-- Python list slicing `l[:n]`: a nonnegative bound takes a prefix, a
negative bound drops that many elements from the end, both clamped. -/
def pySliceTo (n : Int) (l : List RecipeT) : List RecipeT :=
  if 0 ≤ n then l.take n.toNat else l.take (l.length - (-n).toNat)

/-- Result of running a Python method that may raise an unhandled
exception. -/
inductive PyResult (α : Type) where
  | ok : α → PyResult α
  | valueError : PyResult α
deriving Repr, DecidableEq

/-- Embedding of `api.serializers.SubscriptionsListSerializer.get_recipes`: take the
author's recipes; when `recipes_limit` is present and non-empty (Python
truthiness), slice by `int(limit)` — the conversion is unguarded, so a
non-integer limit raises `ValueError`. -/
def get_recipes (s : Store) (authorId : Nat) (recipes_limit : Option String) :
    PyResult (List RecipeT) :=
  let recipes := s.recipes.filter fun r => r.authorId == authorId
  match recipes_limit with
  | none => .ok recipes
  | some limit =>
    if limit.isEmpty then .ok recipes
    else
      match pyInt limit with
      | some n => .ok (pySliceTo n recipes)
      | none => .valueError

/-- Result of a multi-statement write under default autocommit: success
with the new store, or an unhandled `IntegrityError` carrying the store
as the statements already committed left it. -/
inductive UpdateResult where
  | ok : Store → UpdateResult
  | integrityError : Store → UpdateResult
deriving Repr, DecidableEq

/-- Embedding of `RecipeIngredient.objects.bulk_create` under the
`UniqueConstraint(fields=["recipe", "ingredient"])` of
`recipes.models.RecipeIngredient.Meta`: the batch insert fails
(`IntegrityError`, no row of the batch inserted) as soon as a row's
`(recipe, ingredient)` pair collides with the table or with an earlier
row of the batch; otherwise all rows are appended. -/
def bulkCreateRows (rid : Nat) :
    List RecipeIngredientT → List (Nat × Nat) → Option (List RecipeIngredientT)
  | rows, [] => some rows
  | rows, pr :: rest =>
    if rows.any fun r => r.recipeId == rid && r.ingredientId == pr.1 then none
    else bulkCreateRows rid (rows ++ [⟨rid, pr.1, pr.2⟩]) rest

/-- Embedding of `api.serializers.RecipeCreateUpdateSerializer.update`
restricted to the ingredient links: when an ingredient list is supplied,
`instance.ingredients.clear()` deletes every `RecipeIngredient` row of
the recipe, then `bulk_create` inserts the submitted
`(ingredient, amount)` pairs under the `(recipe, ingredient)` unique
constraint.  A constraint violation surfaces after the clear has already
run, so the error result carries the store with the recipe's links
cleared.  When no list is supplied nothing happens to the links. -/
def recipeUpdateIngredients (s : Store) (rid : Nat)
    (ingredients : Option (List (Nat × Nat))) : UpdateResult :=
  match ingredients with
  | none => .ok s
  | some ings =>
    let cleared := s.recipeIngredients.filter fun ri => !(ri.recipeId == rid)
    match bulkCreateRows rid cleared ings with
    | some rows => .ok { s with recipeIngredients := rows }
    | none => .integrityError { s with recipeIngredients := cleared }

/-- Embedding of `Subscriptions.objects.create` as constrained by
`users.models.Subscriptions.Meta.constraints`: the database rejects a
duplicate `(author, user)` pair (`UniqueConstraint`) and a row with
`author = user` (`CheckConstraint ~Q(author=F("user"))`), raising
`IntegrityError`; otherwise the row is inserted. -/
def insertSubscription (s : Store) (authorId userId : Nat) : Option Store :=
  if authorId == userId then none
  else if s.subscriptions.any fun x => x.authorId == authorId && x.userId == userId then
    none
  else some { s with subscriptions := ⟨authorId, userId⟩ :: s.subscriptions }

/-- Embedding of `api.views.SubscribeView.post` (and the POST branch of
`CustomUserViewSet.subscribe`): the serializer's `PrimaryKeyRelatedField`
rejects an unknown author id and its `UniqueTogetherValidator` rejects an
existing `(user, author)` pair, both as 400; an insert that violates a
database constraint (self-subscription) surfaces as an unhandled
`IntegrityError`, never a success. -/
def subscribePost (s : Store) (userId authorId : Nat) : Outcome :=
  if !(s.users.any fun x => x == authorId) then .badRequest
  else if s.subscriptions.any fun x => x.authorId == authorId && x.userId == userId then
    .badRequest
  else
    match insertSubscription s authorId userId with
    | some s' => .created s'
    | none => .serverError

/-- DELETE branch of `api.views.CustomUserViewSet.subscribe`:
`get_object_or_404(User, id)` then `get_object_or_404(Subscriptions,
user, author)`, so a missing author or a missing subscription row is a
404; otherwise the row is deleted with 204. -/
def unsubscribe (s : Store) (userId authorId : Nat) : Outcome :=
  if !(s.users.any fun x => x == authorId) then .notFound
  else if s.subscriptions.any fun x => x.authorId == authorId && x.userId == userId then
    .noContent { s with
      subscriptions := s.subscriptions.filter
        (fun x => !(x.authorId == authorId && x.userId == userId)) }
  else .notFound

/-- Embedding of `api.views.RecipesViewSet.add_to` applied to the `Favorite` model: an
existing `(user, recipe)` pair is a 400, an unknown recipe id a 404,
otherwise the join row is created with 201. -/
def add_to_favorite (s : Store) (u pk : Nat) : Outcome :=
  if s.favorites.any fun f => f.userId == u && f.recipeId == pk then .badRequest
  else if s.recipes.any fun r => r.id == pk then
    .created { s with favorites := ⟨u, pk⟩ :: s.favorites }
  else .notFound

/-- Embedding of `api.views.RecipesViewSet.add_to` applied to the `RecipeCart` model. -/
def add_to_cart (s : Store) (u pk : Nat) : Outcome :=
  if s.carts.any fun c => c.userId == u && c.recipeId == pk then .badRequest
  else if s.recipes.any fun r => r.id == pk then
    .created { s with carts := ⟨u, pk⟩ :: s.carts }
  else .notFound

/-- Embedding of `api.views.RecipesViewSet.delete_from` applied to `Favorite`: delete
the filtered rows with 204 when any exist, else 400. -/
def delete_from_favorite (s : Store) (u pk : Nat) : Outcome :=
  if s.favorites.any fun f => f.userId == u && f.recipeId == pk then
    .noContent { s with
      favorites := s.favorites.filter (fun f => !(f.userId == u && f.recipeId == pk)) }
  else .badRequest

/-- Embedding of `api.views.RecipesViewSet.delete_from` applied to `RecipeCart`. -/
def delete_from_cart (s : Store) (u pk : Nat) : Outcome :=
  if s.carts.any fun c => c.userId == u && c.recipeId == pk then
    .noContent { s with
      carts := s.carts.filter (fun c => !(c.userId == u && c.recipeId == pk)) }
  else .badRequest

/-- Key the shopping-list aggregation groups by: the row's ingredient
name and measurement unit, via the `RecipeIngredient.ingredient` FK
(`values("ingredient__name", "ingredient__measurement_unit")`). -/
def ingKey (s : Store) (ri : RecipeIngredientT) : String × String :=
  match s.ingredients.find? (fun i => i.id == ri.ingredientId) with
  | some i => (i.name, i.measurement_unit)
  | none => ("", "")

/-- Embedding of `RecipeIngredient.objects.filter(recipe__shopping_cart__user=user)`:
the `RecipeIngredient` rows of every recipe in the user's cart. -/
def cartedRows (s : Store) (u : Nat) : List RecipeIngredientT :=
  s.recipeIngredients.filter fun ri =>
    s.carts.any fun c => c.userId == u && c.recipeId == ri.recipeId

/-- The SQL `GROUP BY (name, unit)` with `Sum("amount")`: one output row
per distinct key, carrying the summed amount of its group. -/
def groupAmounts (s : Store) (rows : List RecipeIngredientT) :
    List ((String × String) × Nat) :=
  ((rows.map (ingKey s)).dedup).map fun k =>
    (k, ((rows.filter fun r => decide (ingKey s r = k)).map (fun r => r.amount)).sum)

/-- One rendered line of the export:
`f'- {name} ({unit}) - {amount}'`. -/
def renderCartLine (g : (String × String) × Nat) : String :=
  "- " ++ g.1.1 ++ " (" ++ g.1.2 ++ ") - " ++ toString g.2

/-- Embedding of `api.views.RecipesViewSet.download_shopping_cart`: 400 (`none`) when
the user's cart is empty, otherwise the grouped, summed ingredient rows
of all carted recipes. -/
def download_shopping_cart (s : Store) (u : Nat) :
    Option (List ((String × String) × Nat)) :=
  if s.carts.any (fun c => c.userId == u) then
    some (groupAmounts s (cartedRows s u))
  else none

/-- The text attachment built by `download_shopping_cart`: a header, one
line per aggregated group, and a footer. -/
def shoppingListText (s : Store) (u : Nat) : Option String :=
  (download_shopping_cart s u).map fun groups =>
    "Список покупок: \n\n"
      ++ String.intercalate "\n" (groups.map renderCartLine)
      ++ "\n\nFoodgram."

/-- Concrete store of the spec's flour example: user 7's cart holds
recipe A (flour 200 g) and recipe B (flour 300 g). -/
def storeFlour : Store :=
  ⟨[7], [], [⟨1, "flour", "g"⟩],
   [⟨1, 7, "A", "", 10⟩, ⟨2, 7, "B", "", 10⟩],
   [⟨1, 1, 200⟩, ⟨2, 1, 300⟩], [], [], [⟨7, 1⟩, ⟨7, 2⟩], []⟩

/-- The uniqueness invariants declared by the three join models'
`Meta.constraints`: no duplicate `(user, recipe)` pair in `Favorite` or
`RecipeCart`, no duplicate `(author, user)` pair in `Subscriptions`. -/
def NoDupPairs (s : Store) : Prop :=
  (s.favorites.map fun f => (f.userId, f.recipeId)).Nodup
  ∧ (s.carts.map fun c => (c.userId, c.recipeId)).Nodup
  ∧ (s.subscriptions.map fun x => (x.authorId, x.userId)).Nodup

/-- Validated payload of `RecipeCreateUpdateSerializer`: name, text,
cooking_time, tag pks and `(ingredient pk, amount)` pairs. -/
structure RecipePayload where
  name : String
  text : String
  cooking_time : Nat
  tags : List Nat
  ingredients : List (Nat × Nat)
deriving Repr, DecidableEq

/-- Field and object validation run by `RecipeCreateUpdateSerializer`:
the model validators `MinValueValidator(1)`/`MaxValueValidator(1000)` on
`cooking_time`; each tag pk must exist (`PrimaryKeyRelatedField`);
`validate_ingredients` requires at least one pair; each ingredient pk
must exist and each `amount` respects `min_value=1`.  No validator
rejects an empty tag list (`allow_empty` is left at its default). -/
def validRecipePayload (s : Store) (p : RecipePayload) : Bool :=
  decide (1 ≤ p.cooking_time) && decide (p.cooking_time ≤ 1000)
  && (p.tags.all fun t => s.tags.any fun tg => tg == t)
  && decide (1 ≤ p.ingredients.length)
  && (p.ingredients.all fun pr =>
      (s.ingredients.any fun i => i.id == pr.1) && decide (1 ≤ pr.2))

/-- Embedding of `RecipeCreateUpdateSerializer.create`: on a valid payload insert the
recipe row for the requesting author plus one join row per ingredient
and per tag; an invalid payload is a 400 (`none`). -/
def createRecipe (s : Store) (p : RecipePayload) (author newId : Nat) :
    Option Store :=
  if validRecipePayload s p then
    some { s with
      recipes := ⟨newId, author, p.name, p.text, p.cooking_time⟩ :: s.recipes,
      recipeIngredients := s.recipeIngredients
        ++ p.ingredients.map (fun pr => ⟨newId, pr.1, pr.2⟩),
      recipeTags := s.recipeTags ++ p.tags.map (fun t => (newId, t)) }
  else none

/-- Embedding of `RecipeCreateUpdateSerializer.update` on a full payload: validate,
replace the recipe's scalar columns, replace its ingredient links
(`recipeUpdateIngredients`) and its tag links. -/
def updateRecipe (s : Store) (rid : Nat) (p : RecipePayload) : Option Store :=
  if validRecipePayload s p then
    match recipeUpdateIngredients s rid (some p.ingredients) with
    | .ok s1 =>
      some { s1 with
        recipes := s.recipes.map fun r =>
          if r.id == rid then ⟨r.id, r.authorId, p.name, p.text, p.cooking_time⟩
          else r,
        recipeTags := (s.recipeTags.filter fun rt => !(rt.1 == rid))
          ++ p.tags.map (fun t => (rid, t)) }
    | .integrityError _ => none
  else none

/-- Validation of a supplied ingredient list exactly as
`RecipeCreateUpdateSerializer` runs it on any write:
`validate_ingredients` requires at least one pair, each ingredient pk
must exist and each amount respects `min_value=1`. -/
def validIngredientsList (s : Store) (ings : List (Nat × Nat)) : Bool :=
  decide (1 ≤ ings.length)
  && (ings.all fun pr =>
      (s.ingredients.any fun i => i.id == pr.1) && decide (1 ≤ pr.2))

/-- Embedding of a PATCH (partial) update restricted to the ingredient
field: DRF's `partial=True` skips absent fields, so an omitted
ingredient list is accepted and `update()` pops `None` and leaves the
links alone; a supplied list runs the same field validators as create
and then the clear-and-bulk-create replacement. -/
def patchRecipe (s : Store) (rid : Nat)
    (ingredients : Option (List (Nat × Nat))) : Option Store :=
  match ingredients with
  | none => some s
  | some ings =>
    if validIngredientsList s ings then
      match recipeUpdateIngredients s rid (some ings) with
      | .ok s1 => some s1
      | .integrityError _ => none
    else none

/-- Embedding of `RecipeListSerializer.get_is_favorited`: `false` for an anonymous
requester, else an existence lookup in `Favorite`. -/
def get_is_favorited (s : Store) (requester : Option Nat) (rid : Nat) : Bool :=
  match requester with
  | none => false
  | some u => s.favorites.any fun f => f.userId == u && f.recipeId == rid

/-- Embedding of `RecipeListSerializer.get_is_in_shopping_cart`: `false` for an
anonymous requester, else an existence lookup in `RecipeCart`. -/
def get_is_in_shopping_cart (s : Store) (requester : Option Nat) (rid : Nat) :
    Bool :=
  match requester with
  | none => false
  | some u => s.carts.any fun c => c.userId == u && c.recipeId == rid

/-- Embedding of `RecipeListSerializer.get_ingredients`: the recipe's join rows
flattened with the referenced ingredient's id, name and unit. -/
def get_ingredients (s : Store) (rid : Nat) :
    List (Nat × String × Nat × String) :=
  (s.recipeIngredients.filter fun ri => ri.recipeId == rid).map fun ri =>
    match s.ingredients.find? (fun i => i.id == ri.ingredientId) with
    | some i => (i.id, i.name, ri.amount, i.measurement_unit)
    | none => (ri.ingredientId, "", ri.amount, "")

/-- Rendered recipe (`RecipeListSerializer`): tags, author profile,
flattened ingredients, the two derived booleans, and the scalar
columns. -/
structure RecipeView where
  id : Nat
  tags : List Nat
  author : UserView
  ingredients : List (Nat × String × Nat × String)
  is_favorited : Bool
  is_in_shopping_cart : Bool
  name : String
  cooking_time : Nat
deriving Repr, DecidableEq

/-- Embedding of `RecipeListSerializer.to_representation` for a requester (`none` =
anonymous). -/
def renderRecipe (s : Store) (requester : Option Nat) (r : RecipeT) :
    RecipeView :=
  ⟨r.id,
   (s.recipeTags.filter fun rt => rt.1 == r.id).map (fun rt => rt.2),
   renderUser s requester r.authorId,
   get_ingredients s r.id,
   get_is_favorited s requester r.id,
   get_is_in_shopping_cart s requester r.id,
   r.name, r.cooking_time⟩

/-- Store for validation witnesses: one user and one known ingredient,
no recipes yet. -/
def storeV : Store := ⟨[1], [], [⟨1, "flour", "g"⟩], [], [], [], [], [], []⟩

/-- Store for the duplicate-ingredient update input: recipe 1 already
linked to ingredient 2 with amount 5, ingredients 1–3 known. -/
def storeC2 : Store :=
  ⟨[1], [], [⟨1, "flour", "g"⟩, ⟨2, "salt", "g"⟩, ⟨3, "sugar", "g"⟩],
   [⟨1, 1, "r", "t", 5⟩], [⟨1, 2, 5⟩], [], [], [], []⟩

/-- Payload with an empty tag list but otherwise valid fields. -/
def payloadEmptyTags : RecipePayload := ⟨"x", "t", 5, [], [(1, 2)]⟩

/-- Store for the invariant and deletion witnesses: two users and one
recipe, all join tables empty. -/
def storeW : Store := ⟨[1, 2], [], [], [⟨1, 1, "r", "t", 5⟩], [], [], [], [], []⟩

/-- C9 — a user viewing their own profile is never reported as subscribed
to themselves: `get_is_subscribed` returns `false` when the requester
equals the rendered user, whatever the `Subscriptions` table holds. -/
theorem own_profile_is_subscribed_false (s : Store) (u : Nat) :
    (renderUser s (some u) u).is_subscribed = false := by
  simp [renderUser, get_is_subscribed]

/-- C10 — the `recipes_limit` conversion is unguarded: the non-empty,
non-decimal limit string "abc" makes `get_recipes` raise an unhandled
`ValueError` instead of producing a recipe list. -/
theorem recipes_limit_unguarded_int :
    ("abc" : String) ≠ "" ∧ pyInt "abc" = none ∧
      get_recipes ⟨[5], [], [], [⟨1, 5, "r", "t", 3⟩], [], [], [], [], []⟩ 5
        (some "abc") = .valueError := by
  refine ⟨by decide, by decide, ?_⟩
  rfl

/-- The POST branch of subscribe never yields 201 for a self-subscription:
the serializer does not catch it, and the database check constraint makes
the insert fail. -/
theorem subscribePost_self_cases (s : Store) (u : Nat) :
    subscribePost s u u = .badRequest ∨ subscribePost s u u = .serverError := by
  have hins : insertSubscription s u u = none := by simp [insertSubscription]
  unfold subscribePost
  split
  · exact Or.inl rfl
  · split
    · exact Or.inl rfl
    · rw [hins]
      exact Or.inr rfl

/-- C3 — self-subscription is always rejected: subscribing with
`author_id = user_id` never returns a created outcome, the constrained
insert refuses the row, and the store is left unchanged. -/
theorem self_subscription_rejected (s : Store) (u : Nat) :
    (∀ s', subscribePost s u u ≠ .created s') ∧
      insertSubscription s u u = none ∧
      resultStore s (subscribePost s u u) = s := by
  refine ⟨?_, by simp [insertSubscription], ?_⟩
  · intro s' hc
    rcases subscribePost_self_cases s u with h | h <;> rw [h] at hc <;> exact Outcome.noConfusion hc
  · rcases subscribePost_self_cases s u with h | h <;> rw [h] <;> rfl

/-- Helper for C2: bulk insertion succeeds and appends the rows when the
table holds no colliding `(recipe, ingredient)` pair and the batch
repeats no ingredient id. -/
theorem bulkCreateRows_ok (rid : Nat) (ings : List (Nat × Nat)) :
    ∀ rows : List RecipeIngredientT,
    (∀ r ∈ rows, r.recipeId = rid → ∀ pr ∈ ings, r.ingredientId ≠ pr.1) →
    (ings.map Prod.fst).Nodup →
    bulkCreateRows rid rows ings
      = some (rows ++ ings.map fun pr => ⟨rid, pr.1, pr.2⟩) := by
  induction ings with
  | nil =>
    intro rows _ _
    simp [bulkCreateRows]
  | cons pr rest ih =>
    intro rows hcompat hnd
    rw [List.map_cons, List.nodup_cons] at hnd
    have hany : (rows.any fun r => r.recipeId == rid && r.ingredientId == pr.1)
        = false := by
      rw [List.any_eq_false]
      intro r hr
      simp only [Bool.and_eq_true, beq_iff_eq, not_and]
      intro h1 h2
      exact hcompat r hr h1 pr (List.mem_cons_self pr rest) h2
    rw [bulkCreateRows, hany, if_neg Bool.false_ne_true]
    have hcompat2 : ∀ r ∈ rows ++ [(⟨rid, pr.1, pr.2⟩ : RecipeIngredientT)],
        r.recipeId = rid → ∀ q ∈ rest, r.ingredientId ≠ q.1 := by
      intro r hr hrid q hq
      rcases List.mem_append.mp hr with hr | hr
      · exact hcompat r hr hrid q (List.mem_cons_of_mem pr hq)
      · have hrx := List.mem_singleton.mp hr
        subst hrx
        intro hcontra
        apply hnd.1
        have hc2 : pr.1 = q.1 := hcontra
        rw [hc2]
        exact List.mem_map_of_mem Prod.fst hq
    rw [ih (rows ++ [(⟨rid, pr.1, pr.2⟩ : RecipeIngredientT)]) hcompat2 hnd.2,
      List.append_assoc]
    rfl

/-- C2 counterexample — an update request may supply a list that repeats
an ingredient id; validation does not catch it, so after the clear the
re-insert violates the `(recipe, ingredient)` unique constraint: the
request errors and recipe 1's links are left empty, not equal to the
submitted list. -/
theorem duplicate_ingredient_update_fails :
    recipeUpdateIngredients storeC2 1 (some [(1, 2), (1, 3)])
        = .integrityError { storeC2 with recipeIngredients := [] }
    ∧ (∀ s', recipeUpdateIngredients storeC2 1 (some [(1, 2), (1, 3)]) ≠ .ok s')
    ∧ (({ storeC2 with
          recipeIngredients := ([] : List RecipeIngredientT) } : Store).recipeIngredients.filter
        (fun ri : RecipeIngredientT => ri.recipeId == 1)).map
          (fun ri : RecipeIngredientT => (ri.ingredientId, ri.amount))
      ≠ [(1, 2), (1, 3)] := by
  have heval : recipeUpdateIngredients storeC2 1 (some [(1, 2), (1, 3)])
      = .integrityError { storeC2 with recipeIngredients := [] } := by decide
  refine ⟨heval, ?_, by decide⟩
  intro s' hc
  rw [heval] at hc
  exact UpdateResult.noConfusion hc

/-- C2 (amended) — updating a recipe with a supplied ingredient list that
repeats no ingredient id fully replaces its links: the update succeeds
and afterwards the recipe's `RecipeIngredient` rows are exactly the
submitted `(ingredient, amount)` pairs, while rows of other recipes are
untouched. -/
theorem update_replaces_ingredient_links (s : Store) (rid : Nat)
    (ings : List (Nat × Nat)) (hnd : (ings.map Prod.fst).Nodup) :
    ∃ s', recipeUpdateIngredients s rid (some ings) = .ok s'
      ∧ (s'.recipeIngredients.filter
          (fun ri => ri.recipeId == rid)).map (fun ri => (ri.ingredientId, ri.amount))
        = ings
      ∧ s'.recipeIngredients.filter (fun ri => !(ri.recipeId == rid))
        = s.recipeIngredients.filter (fun ri => !(ri.recipeId == rid)) := by
  have hcleared : ∀ r ∈ s.recipeIngredients.filter (fun ri => !(ri.recipeId == rid)),
      r.recipeId = rid → ∀ pr ∈ ings, r.ingredientId ≠ pr.1 := by
    intro r hr hrid
    have hpred := List.of_mem_filter hr
    simp [hrid] at hpred
  have hbulk := bulkCreateRows_ok rid ings
    (s.recipeIngredients.filter (fun ri => !(ri.recipeId == rid))) hcleared hnd
  refine ⟨{ s with
      recipeIngredients :=
        (s.recipeIngredients.filter fun ri : RecipeIngredientT => !(ri.recipeId == rid))
        ++ ings.map fun pr : Nat × Nat => (⟨rid, pr.1, pr.2⟩ : RecipeIngredientT) },
    ?_, ?_, ?_⟩
  · simp only [recipeUpdateIngredients]
    rw [hbulk]
  · simp [List.filter_append, List.filter_filter, List.filter_map,
      Function.comp_def]
  · simp [List.filter_append, List.filter_filter, List.filter_map,
      Function.comp_def]

/-- Witness for C2's amended statement: a duplicate-free submitted list
at a store whose recipe 1 already has a different link. -/
theorem update_replaces_ingredient_links_witness :
    ((([(1, 2), (3, 4)] : List (Nat × Nat)).map Prod.fst).Nodup : Prop)
    ∧ (∃ s', recipeUpdateIngredients storeC2 1 (some [(1, 2), (3, 4)]) = .ok s'
        ∧ (s'.recipeIngredients.filter
            (fun ri => ri.recipeId == 1)).map (fun ri => (ri.ingredientId, ri.amount))
          = [(1, 2), (3, 4)]
        ∧ s'.recipeIngredients.filter (fun ri => !(ri.recipeId == 1))
          = storeC2.recipeIngredients.filter (fun ri => !(ri.recipeId == 1))) :=
  ⟨by decide, update_replaces_ingredient_links storeC2 1 [(1, 2), (3, 4)] (by decide)⟩

/-- C1 — for a user with a non-empty cart, the shopping-list export has
exactly one entry per distinct (ingredient name, measurement unit) key,
each entry's amount is the sum of the amounts of the carted
`RecipeIngredient` rows with that key, every carted row's key appears,
and the text renders one line per entry. -/
theorem shopping_list_groups_and_sums (s : Store) (u : Nat)
    (h : s.carts.any (fun c => c.userId == u) = true) :
    ∃ l, download_shopping_cart s u = some l
      ∧ (l.map Prod.fst).Nodup
      ∧ (∀ k a, (k, a) ∈ l →
          a = (((cartedRows s u).filter fun r => decide (ingKey s r = k)).map
                (fun r => r.amount)).sum)
      ∧ (∀ r ∈ cartedRows s u, ∃ a, (ingKey s r, a) ∈ l)
      ∧ shoppingListText s u = some ("Список покупок: \n\n"
          ++ String.intercalate "\n" (l.map renderCartLine) ++ "\n\nFoodgram.") := by
  refine ⟨groupAmounts s (cartedRows s u), ?_, ?_, ?_, ?_, ?_⟩
  · simp [download_shopping_cart, h]
  · have hmap : (groupAmounts s (cartedRows s u)).map Prod.fst
        = ((cartedRows s u).map (ingKey s)).dedup := by
      simp [groupAmounts, List.map_map, Function.comp_def]
    rw [hmap]
    exact List.nodup_dedup _
  · intro k a hmem
    simp only [groupAmounts, List.mem_map] at hmem
    obtain ⟨k2, _, heq⟩ := hmem
    rw [Prod.mk.injEq] at heq
    obtain ⟨hk, ha⟩ := heq
    subst hk
    exact ha.symm
  · intro r hr
    refine ⟨_, List.mem_map.mpr ⟨ingKey s r, ?_, rfl⟩⟩
    exact List.mem_dedup.mpr (List.mem_map_of_mem _ hr)
  · simp [shoppingListText, download_shopping_cart, h]

/-- Witness for C1 at the spec's flour example: user 7's cart is
non-empty, and the conclusion holds for `storeFlour`. -/
theorem shopping_list_groups_and_sums_witness :
    storeFlour.carts.any (fun c => c.userId == 7) = true
    ∧ (∃ l, download_shopping_cart storeFlour 7 = some l
        ∧ (l.map Prod.fst).Nodup
        ∧ (∀ k a, (k, a) ∈ l →
            a = (((cartedRows storeFlour 7).filter
                  fun r => decide (ingKey storeFlour r = k)).map
                  (fun r => r.amount)).sum)
        ∧ (∀ r ∈ cartedRows storeFlour 7, ∃ a, (ingKey storeFlour r, a) ∈ l)
        ∧ shoppingListText storeFlour 7 = some ("Список покупок: \n\n"
            ++ String.intercalate "\n" (l.map renderCartLine) ++ "\n\nFoodgram.")) :=
  ⟨by decide, shopping_list_groups_and_sums storeFlour 7 (by decide)⟩

/-- The flour example evaluated: a cart with recipe A (flour 200 g) and
recipe B (flour 300 g) exports the single group "flour (g) — 500". -/
theorem flour_example_evaluates :
    download_shopping_cart storeFlour 7 = some [(("flour", "g"), 500)] := by
  decide

/-- C8 — an anonymous render of any recipe has `is_favorited = false`
and `is_in_shopping_cart = false`, and two stores differing only in the
`Favorite` and `RecipeCart` tables produce identical anonymous output. -/
theorem anonymous_render_ignores_favorites_and_cart (s1 s2 : Store) (r : RecipeT)
    (h : s1.users = s2.users ∧ s1.tags = s2.tags
      ∧ s1.ingredients = s2.ingredients ∧ s1.recipes = s2.recipes
      ∧ s1.recipeIngredients = s2.recipeIngredients
      ∧ s1.recipeTags = s2.recipeTags
      ∧ s1.subscriptions = s2.subscriptions) :
    renderRecipe s1 none r = renderRecipe s2 none r
    ∧ (renderRecipe s1 none r).is_favorited = false
    ∧ (renderRecipe s1 none r).is_in_shopping_cart = false := by
  obtain ⟨-, -, hi, -, hri, hrt, hsub⟩ := h
  refine ⟨?_, rfl, rfl⟩
  simp only [renderRecipe, renderUser, get_is_subscribed, get_ingredients,
    get_is_favorited, get_is_in_shopping_cart, hi, hri, hrt, hsub]

/-- Witness for C8: two concrete stores that differ only in the favorite
and cart tables render identically for an anonymous requester. -/
theorem anonymous_render_ignores_favorites_and_cart_witness :
    (storeW.users = { storeW with favorites := [⟨1, 1⟩], carts := [⟨2, 1⟩] }.users
      ∧ storeW.tags = { storeW with favorites := [⟨1, 1⟩], carts := [⟨2, 1⟩] }.tags
      ∧ storeW.ingredients = { storeW with favorites := [⟨1, 1⟩], carts := [⟨2, 1⟩] }.ingredients
      ∧ storeW.recipes = { storeW with favorites := [⟨1, 1⟩], carts := [⟨2, 1⟩] }.recipes
      ∧ storeW.recipeIngredients = { storeW with favorites := [⟨1, 1⟩], carts := [⟨2, 1⟩] }.recipeIngredients
      ∧ storeW.recipeTags = { storeW with favorites := [⟨1, 1⟩], carts := [⟨2, 1⟩] }.recipeTags
      ∧ storeW.subscriptions = { storeW with favorites := [⟨1, 1⟩], carts := [⟨2, 1⟩] }.subscriptions)
    ∧ (renderRecipe storeW none ⟨1, 1, "r", "t", 5⟩
        = renderRecipe { storeW with favorites := [⟨1, 1⟩], carts := [⟨2, 1⟩] } none ⟨1, 1, "r", "t", 5⟩
      ∧ (renderRecipe storeW none ⟨1, 1, "r", "t", 5⟩).is_favorited = false
      ∧ (renderRecipe storeW none ⟨1, 1, "r", "t", 5⟩).is_in_shopping_cart = false) :=
  ⟨by decide, anonymous_render_ignores_favorites_and_cart storeW
    { storeW with favorites := [⟨1, 1⟩], carts := [⟨2, 1⟩] } ⟨1, 1, "r", "t", 5⟩ (by decide)⟩

/-- Characterization of a successful `add_to` on `Favorite`: the pair was
absent and the new store adds exactly that row. -/
theorem add_to_favorite_created (s s' : Store) (u pk : Nat)
    (h : add_to_favorite s u pk = .created s') :
    (s.favorites.any fun f => f.userId == u && f.recipeId == pk) = false
    ∧ s' = { s with favorites := ⟨u, pk⟩ :: s.favorites } := by
  unfold add_to_favorite at h
  split at h
  next hin => exact Outcome.noConfusion h
  next hin =>
    split at h
    next =>
      cases h
      exact ⟨Bool.eq_false_iff.mpr hin, rfl⟩
    next => exact Outcome.noConfusion h

/-- Characterization of a successful `add_to` on `RecipeCart`. -/
theorem add_to_cart_created (s s' : Store) (u pk : Nat)
    (h : add_to_cart s u pk = .created s') :
    (s.carts.any fun c => c.userId == u && c.recipeId == pk) = false
    ∧ s' = { s with carts := ⟨u, pk⟩ :: s.carts } := by
  unfold add_to_cart at h
  split at h
  next hin => exact Outcome.noConfusion h
  next hin =>
    split at h
    next =>
      cases h
      exact ⟨Bool.eq_false_iff.mpr hin, rfl⟩
    next => exact Outcome.noConfusion h

/-- Characterization of a successful constrained subscription insert. -/
theorem insertSubscription_some (s s' : Store) (a u : Nat)
    (h : insertSubscription s a u = some s') :
    (s.subscriptions.any fun x => x.authorId == a && x.userId == u) = false
    ∧ s' = { s with subscriptions := ⟨a, u⟩ :: s.subscriptions } := by
  unfold insertSubscription at h
  split at h
  next => exact Option.noConfusion h
  next =>
    split at h
    next => exact Option.noConfusion h
    next hin =>
      cases h
      exact ⟨Bool.eq_false_iff.mpr hin, rfl⟩

/-- A 201 from the subscribe endpoint comes from a successful insert. -/
theorem subscribePost_created (s s' : Store) (u a : Nat)
    (h : subscribePost s u a = .created s') :
    insertSubscription s a u = some s' := by
  unfold subscribePost at h
  split at h
  next => exact Outcome.noConfusion h
  next =>
    split at h
    next => exact Outcome.noConfusion h
    next =>
      cases hins : insertSubscription s a u with
      | some s0 =>
        rw [hins] at h
        cases h
        rfl
      | none =>
        rw [hins] at h
        exact Outcome.noConfusion h

/-- C4 — the uniqueness invariant on the three join tables is preserved
by every add operation: when an add returns 201, the updated store still
has no duplicate `(user, recipe)` pair in `Favorite` or `RecipeCart` and
no duplicate `(author, user)` pair in `Subscriptions`. -/
theorem unique_pairs_preserved (s : Store) (u pk a : Nat) (h : NoDupPairs s) :
    (∀ s', add_to_favorite s u pk = .created s' → NoDupPairs s')
    ∧ (∀ s', add_to_cart s u pk = .created s' → NoDupPairs s')
    ∧ (∀ s', subscribePost s u a = .created s' → NoDupPairs s') := by
  obtain ⟨hfav, hcart, hsub⟩ := h
  refine ⟨?_, ?_, ?_⟩
  · intro s' hc
    obtain ⟨hany, rfl⟩ := add_to_favorite_created s s' u pk hc
    refine ⟨?_, hcart, hsub⟩
    simp only [List.map_cons]
    refine List.nodup_cons.mpr ⟨?_, hfav⟩
    intro hmem
    rw [List.any_eq_false] at hany
    rcases List.mem_map.mp hmem with ⟨f, hfmem, hfeq⟩
    rw [Prod.mk.injEq] at hfeq
    exact hany f hfmem (by simp [hfeq.1, hfeq.2])
  · intro s' hc
    obtain ⟨hany, rfl⟩ := add_to_cart_created s s' u pk hc
    refine ⟨hfav, ?_, hsub⟩
    simp only [List.map_cons]
    refine List.nodup_cons.mpr ⟨?_, hcart⟩
    intro hmem
    rw [List.any_eq_false] at hany
    rcases List.mem_map.mp hmem with ⟨c, hcmem, hceq⟩
    rw [Prod.mk.injEq] at hceq
    exact hany c hcmem (by simp [hceq.1, hceq.2])
  · intro s' hc
    obtain ⟨hany, rfl⟩ := insertSubscription_some s s' a u
      (subscribePost_created s s' u a hc)
    refine ⟨hfav, hcart, ?_⟩
    simp only [List.map_cons]
    refine List.nodup_cons.mpr ⟨?_, hsub⟩
    intro hmem
    rw [List.any_eq_false] at hany
    rcases List.mem_map.mp hmem with ⟨x, hxmem, hxeq⟩
    rw [Prod.mk.injEq] at hxeq
    exact hany x hxmem (by simp [hxeq.1, hxeq.2])

/-- Witness for C4 at a concrete store with two users and one recipe. -/
theorem unique_pairs_preserved_witness :
    NoDupPairs storeW
    ∧ ((∀ s', add_to_favorite storeW 2 1 = .created s' → NoDupPairs s')
      ∧ (∀ s', add_to_cart storeW 2 1 = .created s' → NoDupPairs s')
      ∧ (∀ s', subscribePost storeW 2 1 = .created s' → NoDupPairs s')) :=
  ⟨by unfold NoDupPairs; decide,
   unique_pairs_preserved storeW 2 1 1 (by unfold NoDupPairs; decide)⟩

/-- A payload that passes validation has a non-empty ingredient list and
every amount at least 1. -/
theorem validRecipePayload_ingredients (s : Store) (p : RecipePayload)
    (h : validRecipePayload s p = true) :
    1 ≤ p.ingredients.length ∧ ∀ pr ∈ p.ingredients, 1 ≤ pr.2 := by
  unfold validRecipePayload at h
  simp only [Bool.and_eq_true, decide_eq_true_eq, List.all_eq_true] at h
  exact ⟨h.1.2, fun pr hpr => (h.2 pr hpr).2⟩

/-- Characterization of a successful create: the payload validated and
the new recipe row heads the table. -/
theorem createRecipe_some (s s' : Store) (p : RecipePayload) (author newId : Nat)
    (h : createRecipe s p author newId = some s') :
    validRecipePayload s p = true
    ∧ s'.recipes = ⟨newId, author, p.name, p.text, p.cooking_time⟩ :: s.recipes := by
  unfold createRecipe at h
  split at h
  next hv =>
    cases h
    exact ⟨hv, rfl⟩
  next => exact Option.noConfusion h

/-- Characterization of a successful full update: the payload validated
and the recipe table is mapped, replacing the matching row's columns. -/
theorem updateRecipe_some (s s' : Store) (rid : Nat) (p : RecipePayload)
    (h : updateRecipe s rid p = some s') :
    validRecipePayload s p = true
    ∧ s'.recipes = s.recipes.map fun r =>
        if r.id == rid then ⟨r.id, r.authorId, p.name, p.text, p.cooking_time⟩
        else r := by
  unfold updateRecipe at h
  split at h
  next hv =>
    cases hres : recipeUpdateIngredients s rid (some p.ingredients) with
    | ok s1 =>
      rw [hres] at h
      cases h
      exact ⟨hv, rfl⟩
    | integrityError s1 =>
      rw [hres] at h
      exact Option.noConfusion h
  next => exact Option.noConfusion h

/-- C6 counterexample — a payload with an empty tag list but a valid
non-empty ingredient list is accepted, not rejected: no validator in
`RecipeCreateUpdateSerializer` requires the tag list to be non-empty. -/
theorem empty_tag_list_accepted :
    payloadEmptyTags.tags = [] ∧ createRecipe storeV payloadEmptyTags 1 10 ≠ none := by
  constructor
  · rfl
  · decide

/-- A payload whose ingredient list is empty, or holds a zero amount,
fails validation. -/
theorem validRecipePayload_bad_ingredients (s : Store) (p : RecipePayload)
    (h : p.ingredients = [] ∨ ∃ pr ∈ p.ingredients, pr.2 = 0) :
    validRecipePayload s p = false := by
  cases hval : validRecipePayload s p with
  | false => rfl
  | true =>
    exfalso
    obtain ⟨hlen, hamt⟩ := validRecipePayload_ingredients s p hval
    rcases h with h | ⟨pr, hpr, h0⟩
    · rw [h] at hlen
      simp at hlen
    · have := hamt pr hpr
      omega

/-- A supplied ingredient list that passes the field validators is
non-empty with every amount at least 1. -/
theorem validIngredientsList_spec (s : Store) (ings : List (Nat × Nat))
    (h : validIngredientsList s ings = true) :
    1 ≤ ings.length ∧ ∀ pr ∈ ings, 1 ≤ pr.2 := by
  unfold validIngredientsList at h
  simp only [Bool.and_eq_true, decide_eq_true_eq, List.all_eq_true] at h
  exact ⟨h.1, fun pr hpr => (h.2 pr hpr).2⟩

/-- A supplied ingredient list that is empty or holds a zero amount
fails the field validators. -/
theorem validIngredientsList_bad (s : Store) (ings : List (Nat × Nat))
    (h : ings = [] ∨ ∃ pr ∈ ings, pr.2 = 0) :
    validIngredientsList s ings = false := by
  cases hval : validIngredientsList s ings with
  | false => rfl
  | true =>
    exfalso
    obtain ⟨hlen, hamt⟩ := validIngredientsList_spec s ings hval
    rcases h with h | ⟨pr, hpr, h0⟩
    · rw [h] at hlen
      simp at hlen
    · have := hamt pr hpr
      omega

/-- A partial update that supplies an ingredient list is accepted only
when the list passes the field validators. -/
theorem patchRecipe_some_valid (s s' : Store) (rid : Nat)
    (ings : List (Nat × Nat)) (h : patchRecipe s rid (some ings) = some s') :
    validIngredientsList s ings = true := by
  simp only [patchRecipe] at h
  split at h
  next hv => exact hv
  next hv => exact Option.noConfusion h

/-- C6 (amended) — every write path that supplies an ingredient list
(create, full update, partial update) accepts the payload only if the
list is non-empty and every amount is at least 1; an empty ingredient
list or a zero amount is rejected on all of them.  An empty tag list is
not a rejection cause, and a partial update that omits the ingredient
list entirely is accepted with the store unchanged. -/
theorem recipe_write_validation (s : Store) (p : RecipePayload)
    (author newId rid : Nat) :
    (p.ingredients = [] →
      createRecipe s p author newId = none
      ∧ updateRecipe s rid p = none
      ∧ patchRecipe s rid (some p.ingredients) = none)
    ∧ ((∃ pr ∈ p.ingredients, pr.2 = 0) →
      createRecipe s p author newId = none
      ∧ updateRecipe s rid p = none
      ∧ patchRecipe s rid (some p.ingredients) = none)
    ∧ (∀ s', createRecipe s p author newId = some s' →
        1 ≤ p.ingredients.length ∧ ∀ pr ∈ p.ingredients, 1 ≤ pr.2)
    ∧ (∀ s', updateRecipe s rid p = some s' →
        1 ≤ p.ingredients.length ∧ ∀ pr ∈ p.ingredients, 1 ≤ pr.2)
    ∧ (∀ s', patchRecipe s rid (some p.ingredients) = some s' →
        1 ≤ p.ingredients.length ∧ ∀ pr ∈ p.ingredients, 1 ≤ pr.2)
    ∧ patchRecipe s rid none = some s := by
  have hreject : validRecipePayload s p = false →
      createRecipe s p author newId = none ∧ updateRecipe s rid p = none := by
    intro hv
    constructor
    · unfold createRecipe
      rw [hv]
      rfl
    · unfold updateRecipe
      rw [hv]
      rfl
  have hpatchreject : validIngredientsList s p.ingredients = false →
      patchRecipe s rid (some p.ingredients) = none := by
    intro hv
    simp only [patchRecipe]
    rw [hv]
    rfl
  refine ⟨?_, ?_, ?_, ?_, ?_, rfl⟩
  · intro hnil
    obtain ⟨h1, h2⟩ := hreject (validRecipePayload_bad_ingredients s p (Or.inl hnil))
    exact ⟨h1, h2, hpatchreject (validIngredientsList_bad s p.ingredients (Or.inl hnil))⟩
  · intro hex
    obtain ⟨h1, h2⟩ := hreject (validRecipePayload_bad_ingredients s p (Or.inr hex))
    exact ⟨h1, h2, hpatchreject (validIngredientsList_bad s p.ingredients (Or.inr hex))⟩
  · intro s' hc
    exact validRecipePayload_ingredients s p (createRecipe_some s s' p author newId hc).1
  · intro s' hc
    exact validRecipePayload_ingredients s p (updateRecipe_some s s' rid p hc).1
  · intro s' hc
    exact validIngredientsList_spec s p.ingredients
      (patchRecipe_some_valid s s' rid p.ingredients hc)

/-- Witness for C6's amended statement at a concrete store and payload. -/
theorem recipe_write_validation_witness :
    (payloadEmptyTags.ingredients = [] →
      createRecipe storeV payloadEmptyTags 1 10 = none
      ∧ updateRecipe storeV 3 payloadEmptyTags = none
      ∧ patchRecipe storeV 3 (some payloadEmptyTags.ingredients) = none)
    ∧ ((∃ pr ∈ payloadEmptyTags.ingredients, pr.2 = 0) →
      createRecipe storeV payloadEmptyTags 1 10 = none
      ∧ updateRecipe storeV 3 payloadEmptyTags = none
      ∧ patchRecipe storeV 3 (some payloadEmptyTags.ingredients) = none)
    ∧ (∀ s', createRecipe storeV payloadEmptyTags 1 10 = some s' →
        1 ≤ payloadEmptyTags.ingredients.length
          ∧ ∀ pr ∈ payloadEmptyTags.ingredients, 1 ≤ pr.2)
    ∧ (∀ s', updateRecipe storeV 3 payloadEmptyTags = some s' →
        1 ≤ payloadEmptyTags.ingredients.length
          ∧ ∀ pr ∈ payloadEmptyTags.ingredients, 1 ≤ pr.2)
    ∧ (∀ s', patchRecipe storeV 3 (some payloadEmptyTags.ingredients) = some s' →
        1 ≤ payloadEmptyTags.ingredients.length
          ∧ ∀ pr ∈ payloadEmptyTags.ingredients, 1 ≤ pr.2)
    ∧ patchRecipe storeV 3 none = some storeV :=
  recipe_write_validation storeV payloadEmptyTags 1 10 3

/-- C7 — deleting an absent favorite, cart entry or subscription yields
a 400/404-class outcome, never a success, and leaves the store
unchanged. -/
theorem delete_missing_entry_fails (s : Store) (u pk aid : Nat)
    (hf : (s.favorites.any fun f => f.userId == u && f.recipeId == pk) = false)
    (hc : (s.carts.any fun c => c.userId == u && c.recipeId == pk) = false)
    (hs : (s.subscriptions.any fun x => x.authorId == aid && x.userId == u) = false) :
    delete_from_favorite s u pk = .badRequest
    ∧ resultStore s (delete_from_favorite s u pk) = s
    ∧ delete_from_cart s u pk = .badRequest
    ∧ resultStore s (delete_from_cart s u pk) = s
    ∧ unsubscribe s u aid = .notFound
    ∧ resultStore s (unsubscribe s u aid) = s := by
  have h1 : delete_from_favorite s u pk = .badRequest := by
    unfold delete_from_favorite
    rw [hf]
    rfl
  have h2 : delete_from_cart s u pk = .badRequest := by
    unfold delete_from_cart
    rw [hc]
    rfl
  have h3 : unsubscribe s u aid = .notFound := by
    unfold unsubscribe
    split
    · rfl
    · rw [hs]
      rfl
  exact ⟨h1, by rw [h1]; rfl, h2, by rw [h2]; rfl, h3, by rw [h3]; rfl⟩

/-- Witness for C7: in `storeW` user 1 has no favorite, no cart entry and
no subscription, and all three deletes fail without touching the store. -/
theorem delete_missing_entry_fails_witness :
    ((storeW.favorites.any fun f => f.userId == 1 && f.recipeId == 1) = false
      ∧ (storeW.carts.any fun c => c.userId == 1 && c.recipeId == 1) = false
      ∧ (storeW.subscriptions.any fun x => x.authorId == 2 && x.userId == 1) = false)
    ∧ (delete_from_favorite storeW 1 1 = .badRequest
      ∧ resultStore storeW (delete_from_favorite storeW 1 1) = storeW
      ∧ delete_from_cart storeW 1 1 = .badRequest
      ∧ resultStore storeW (delete_from_cart storeW 1 1) = storeW
      ∧ unsubscribe storeW 1 2 = .notFound
      ∧ resultStore storeW (unsubscribe storeW 1 2) = storeW) :=
  ⟨by decide,
   delete_missing_entry_fails storeW 1 1 2 (by decide) (by decide) (by decide)⟩
